import Mathlib

/-!
Verification of the YouTube-to-MP3 wrapper (console entry point `main.py`,
Qt GUI `qt_app.py`, and the repository upload utility `upload_to_github.py`)
against its natural-language specification.

The development shallowly embeds the pure, claim-relevant parts of the
Python sources:
  * Python string helpers (`strip`, `lower`, `endswith`, `isdigit`, `in`)
    are modelled over `List Char` (ASCII semantics);
  * `build_yt_dlp_options` and its closure `_match_filter` become a Lean
    function producing an options record (the logic is character-for-character
    identical in `main.py` and `qt_app.py`; the two differ only in the
    constant fields `noplaylist`/`quiet` and in taking the progress hook as a
    parameter, neither of which any claim touches);
  * the GUI queue/session state (`MainWindow.on_add`, `MainWindow.on_clear`,
    `DownloadWorker`) becomes explicit state passing over an `AppState`
    record, with the network metadata probe supplied as data;
  * the library listing `MainWindow.refresh_library` is a sort-and-filter
    over a directory snapshot;
  * `github_put_file` is modelled as the trace of API events it performs,
    with the remote blob hash supplied as data;
  * the exit-code logic of `main.main` is a function of the download outcome.
-/

namespace YtMp3

/-! ### Python string primitives (ASCII model) -/

/-- Characters removed by Python's default `str.strip` (ASCII whitespace). -/
def isPySpace (c : Char) : Bool :=
  c == ' ' || c == '\t' || c == '\n' || c == '\r' || c == '\x0b' || c == '\x0c'

/-- Python `str.strip()` on a character list. -/
def pyStripList (cs : List Char) : List Char :=
  ((cs.dropWhile isPySpace).reverse.dropWhile isPySpace).reverse

/-- Python `str.lower()` on a character list (ASCII). -/
def pyLowerList (cs : List Char) : List Char :=
  cs.map Char.toLower

/-- Python `str.strip()`. -/
def pyStrip (s : String) : String :=
  ⟨pyStripList s.data⟩

/-- Python `str.lower()`. -/
def pyLower (s : String) : String :=
  ⟨pyLowerList s.data⟩

/-- Python `str.isdigit()` (ASCII model): nonempty and all digits. -/
def pyIsDigitList (cs : List Char) : Bool :=
  !cs.isEmpty && cs.all Char.isDigit

/-- Does `cs` end with the character `c`? Models Python `str.endswith`. -/
def lastCharIs (cs : List Char) (c : Char) : Bool :=
  match cs.getLast? with
  | some d => d == c
  | none => false

/-- Does the haystack start with the needle? (helper for Python `in`). -/
def leadsWith : List Char → List Char → Bool
  | [], _ => true
  | _ :: _, [] => false
  | a :: as, b :: bs => a == b && leadsWith as bs

/-- Python substring test `needle in hay` on character lists. -/
def occursIn (n : List Char) : List Char → Bool
  | [] => n.isEmpty
  | c :: cs => leadsWith n (c :: cs) || occursIn n cs

/-- Python `needle in hay` on strings. -/
def strContains (hay needle : String) : Bool :=
  occursIn needle.data hay.data

/-! ### `normalize_bitrate_to_yt_dlp_quality` (main.py lines 56-63, qt_app.py lines 34-40) -/

/-- Embeds `normalize_bitrate_to_yt_dlp_quality`: strip, lower, drop one
trailing `k`, and fall back to `"192"` unless the remainder is all digits. -/
def normalize_bitrate_to_yt_dlp_quality (bitrate : String) : String :=
  let cleaned := pyLowerList (pyStripList bitrate.data)
  let cleaned := if lastCharIs cleaned 'k' then cleaned.dropLast else cleaned
  if !(pyIsDigitList cleaned) then "192" else ⟨cleaned⟩

/-! ### `build_yt_dlp_options` (main.py lines 66-124, qt_app.py lines 43-100) -/

/-- One yt-dlp post-processing stage, e.g.
`{"key": "FFmpegExtractAudio", "preferredcodec": ..., "preferredquality": ...}`. -/
structure PPStage where
  key : String
  preferredcodec : Option String := none
  preferredquality : Option String := none
deriving DecidableEq

/-- The candidate-item dictionary fields inspected by `_match_filter`;
`none` models a missing key (Python `info_dict.get(...)` returning `None`). -/
structure InfoDict where
  uploader : Option String := none
  channel : Option String := none
  artist : Option String := none

/-- The yt-dlp options dictionary assembled by `build_yt_dlp_options`.
Optional fields model keys that the Python code only conditionally inserts.
The `progress_hooks` entry (an I/O callback) is outside the pure embedding. -/
structure YdlOpts where
  format : String
  outtmpl : String
  noplaylist : Bool
  quiet : Bool
  no_warnings : Bool
  ignoreerrors : Bool
  default_search : String
  overwrites : Bool
  postprocessors : List PPStage
  ffmpeg_location : Option String := none
  writethumbnail : Bool := false
  cookiefile : Option String := none
  download_archive : Option String := none
  match_filter : Option (InfoDict → Option String) := none

/-- The f-string skip reason produced by `_match_filter`, which interpolates
the original (un-normalized) filter text between single quotes. -/
def skip_message (uploader_filter_str : String) : String :=
  "skip: uploader/channel does not include \x27" ++ uploader_filter_str ++ "\x27"

/-- Embeds `build_yt_dlp_options`. The filesystem probe
`find_local_ffmpeg_dir()` is supplied as the `local_ffmpeg_dir` argument
(empty string = not found, as in the Python function's return contract).
In the source the `FFmpegThumbnailsEmbed` append happens after the dict is
created but mutates the same list object, so the final list order is
extract-audio, then metadata (if requested), then thumbnail-embed (if
requested), which is what the sequenced lets below produce. -/
def build_yt_dlp_options (output_dir audio_format bitrate : String)
    (embed_thumbnail write_metadata : Bool)
    (cookies_file uploader_filter_str download_archive_path local_ffmpeg_dir : String) :
    YdlOpts :=
  let postprocessors : List PPStage :=
    [{ key := "FFmpegExtractAudio",
       preferredcodec := some audio_format,
       preferredquality := some (normalize_bitrate_to_yt_dlp_quality bitrate) }]
  let postprocessors :=
    if write_metadata then postprocessors ++ [{ key := "FFmpegMetadata" }] else postprocessors
  let postprocessors :=
    if embed_thumbnail then postprocessors ++ [{ key := "FFmpegThumbnailsEmbed" }]
    else postprocessors
  { format := "bestaudio/best"
    outtmpl := output_dir ++ "/%(title)s.%(ext)s"
    noplaylist := true
    quiet := false
    no_warnings := true
    ignoreerrors := true
    default_search := "ytsearch"
    overwrites := false
    postprocessors := postprocessors
    ffmpeg_location := if local_ffmpeg_dir ≠ "" then some local_ffmpeg_dir else none
    writethumbnail := embed_thumbnail
    cookiefile := if cookies_file ≠ "" then some cookies_file else none
    download_archive := if download_archive_path ≠ "" then some download_archive_path else none
    match_filter :=
      if uploader_filter_str ≠ "" then
        let needle := pyLower (pyStrip uploader_filter_str)
        some (fun info_dict =>
          let uploader := pyLower (info_dict.uploader.getD "")
          let channel := pyLower (info_dict.channel.getD "")
          let artist := pyLower (info_dict.artist.getD "")
          if !needle.isEmpty &&
              (strContains uploader needle || strContains channel needle ||
                strContains artist needle) then
            none
          else
            some (skip_message uploader_filter_str))
      else none }

/-! ### GUI queue state (qt_app.py: `QueueItem`, `DownloadWorker`, `MainWindow.on_add`, `MainWindow.on_clear`) -/

/-- The `QueueItem` dataclass of qt_app.py. -/
structure QueueItem where
  url : String
  title : String := "Resolving…"
  row : Int := -1
  video_id : String := ""
deriving DecidableEq

/-- Result of the best-effort metadata probe in `MainWindow.on_add`
(the `info` dict after playlist-entry unwrapping). Empty string models a
missing/falsy field, matching the `or`-chains in the source. -/
structure ProbeInfo where
  id : String := ""
  title : String := ""
  webpage_url : String := ""
  url : String := ""
deriving DecidableEq

/-- One user-added token together with the outcome of its metadata probe;
`none` models the probe raising (the exception is swallowed and the item
keeps its original locator and placeholder title). -/
structure AddReq where
  token : String
  probe : Option ProbeInfo := none
deriving DecidableEq

/-- The status/title cells of a queue-table row. -/
structure RowState where
  title : String
  status : String
deriving DecidableEq

/-- The claim-relevant mutable state of `MainWindow` plus the worker's
thread-safe FIFO queue (`DownloadWorker._queue`). -/
structure AppState where
  tableRows : List RowState := []
  session_ids : List String := []
  workerQueue : List QueueItem := []
deriving DecidableEq

/-- Fresh `MainWindow` state: empty table, empty session set, empty queue. -/
def initState : AppState := {}

/-- Builds the `QueueItem` for one token as `on_add` does: defaults, then the
probe (when it succeeded) fills `video_id`, `title` (`info.get("title") or
qi.title`) and the resolved URL (`webpage_url or url or t`). -/
def resolveItem (t : String) (row : Int) (probe : Option ProbeInfo) : QueueItem :=
  let qi : QueueItem := { url := t, title := "Resolving…", row := row }
  match probe with
  | none => qi
  | some info =>
    let qi := { qi with video_id := info.id }
    let qi := { qi with title := if info.title ≠ "" then info.title else qi.title }
    let true_url :=
      if info.webpage_url ≠ "" then info.webpage_url
      else if info.url ≠ "" then info.url
      else t
    { qi with url := true_url }

/-- The stable identifier an add request resolves to ("" when the probe
failed or yielded no id). -/
def reqId (r : AddReq) : String :=
  match r.probe with
  | none => ""
  | some p => p.id

/-- One iteration of the token loop in `MainWindow.on_add`: insert a row,
resolve the item, and either mark it `Skipped (duplicate)` (id already in
`session_ids`) or record the id and enqueue the item to the worker. -/
def on_add_one (s : AppState) (r : AddReq) : AppState :=
  let qi := resolveItem r.token s.tableRows.length r.probe
  if qi.video_id ≠ "" ∧ qi.video_id ∈ s.session_ids then
    { s with tableRows := s.tableRows ++ [{ title := "Resolving…", status := "Skipped (duplicate)" }] }
  else
    { tableRows := s.tableRows ++ [{ title := qi.title, status := "Queued" }]
      session_ids := if qi.video_id ≠ "" then s.session_ids.insert qi.video_id else s.session_ids
      workerQueue := s.workerQueue ++ [qi] }

/-- `MainWindow.on_clear`: `self.table.setRowCount(0)` and
`self.session_ids.clear()`. Nothing else is touched — in particular the
worker's `queue.Queue` is not drained. -/
def on_clear (s : AppState) : AppState :=
  { s with tableRows := [], session_ids := [] }

/-- The worker loop's `self._queue.get(...)`: hand over the front item of the
FIFO queue, or `none` when the queue is empty. -/
def worker_take (s : AppState) : Option QueueItem × AppState :=
  match s.workerQueue with
  | [] => (none, s)
  | q :: rest => (some q, { s with workerQueue := rest })

/-! ### Library listing (`MainWindow.refresh_library`, qt_app.py lines 552-567) -/

/-- Python's string comparison `s <= t`: lexicographic by code point. -/
def listStrLe : List Char → List Char → Bool
  | [], _ => true
  | _ :: _, [] => false
  | a :: as, b :: bs =>
    if a.toNat < b.toNat then true
    else if b.toNat < a.toNat then false
    else listStrLe as bs

/-- Python `s <= t` on strings. -/
def pyStrLe (s t : String) : Bool :=
  listStrLe s.data t.data

/-- Python `s >= t` on strings. -/
def pyStrGe (s t : String) : Bool :=
  pyStrLe t s

instance : DecidableRel (fun a b : String => pyStrGe a b = true) :=
  fun a b => Bool.decEq (pyStrGe a b) true

/-- The fixed recognized audio-extension set of `refresh_library`. -/
def audio_extensions : List String :=
  ["mp3", "m4a", "flac", "wav", "opus", "aac", "ogg", "oga"]

/-- `name.rsplit(".", 1)[-1].lower() if "." in name else ""`: the lowercased
text after the last dot, or "" when the name has no dot. -/
def file_extension (name : String) : String :=
  if name.data.contains '.' then
    ⟨pyLowerList ((name.data.reverse.takeWhile (fun c => c != '.')).reverse)⟩
  else ""

/-- Embeds `MainWindow.refresh_library`: iterate `sorted(os.listdir(root),
reverse=True)` and keep the regular files whose extension is recognized.
The directory snapshot is supplied as the name list `names` (`os.listdir`)
plus the probe `isFile` (`os.path.isfile`). -/
def refresh_library (names : List String) (isFile : String → Bool) : List String :=
  (List.insertionSort (fun a b : String => pyStrGe a b = true) names).filter
    (fun name => isFile name && audio_extensions.contains (file_extension name))

/-! ### Upload utility (`_github_get_sha`, `github_put_file`, upload_to_github.py lines 10-43) -/

/-- The base64 alphabet used by `base64.b64encode`. -/
def b64alphabet : List Char :=
  "ABCDEFGHIJKLMNOPQRSTUVWXYZabcdefghijklmnopqrstuvwxyz0123456789+/".data

/-- The base64 digit for a 6-bit group. -/
def b64char (n : Nat) : Char :=
  b64alphabet.getD n '='

/-- `base64.b64encode` on a byte list (each byte given as a `Nat` below 256),
with `=` padding. -/
def base64EncodeBytes : List Nat → List Char
  | [] => []
  | [b0] =>
    [b64char (b0 / 4 % 64), b64char (b0 % 4 * 16), '=', '=']
  | [b0, b1] =>
    [b64char (b0 / 4 % 64), b64char (b0 % 4 * 16 + b1 / 16 % 16), b64char (b1 % 16 * 4), '=']
  | b0 :: b1 :: b2 :: rest =>
    b64char (b0 / 4 % 64) :: b64char (b0 % 4 * 16 + b1 / 16 % 16) ::
      b64char (b1 % 16 * 4 + b2 / 64 % 4) :: b64char (b2 % 64) :: base64EncodeBytes rest

/-- `base64.b64encode(content_bytes).decode("ascii")`. -/
def base64Encode (bytes : List Nat) : String :=
  ⟨base64EncodeBytes bytes⟩

/-- The JSON payload of the create-or-update-file PUT request; `sha := none`
models the key being absent from the dictionary. -/
structure PutPayload where
  message : String
  content : String
  branch : String
  sha : Option String := none
deriving DecidableEq

/-- One remote API call performed by the upload utility. -/
inductive GhEvent where
  | getShaRequest (repo branch path : String)
  | putRequest (repo branch path : String) (payload : PutPayload)
deriving DecidableEq

/-- Embeds `github_put_file` as the sequence of API events it performs, in
program order. `remoteSha` is the value `_github_get_sha` returns for this
path: the existing blob's sha, or "" when the file does not exist remotely
or the fetch failed (non-200 response or exception). The payload gains a
`"sha"` key exactly when that value is truthy (`if sha:` in the source). -/
def github_put_file (remoteSha : String) (repo branch path message : String)
    (content_bytes : List Nat) : List GhEvent :=
  let payload : PutPayload :=
    { message := message, content := base64Encode content_bytes, branch := branch }
  let sha := remoteSha
  let payload := if sha ≠ "" then { payload with sha := some sha } else payload
  [GhEvent.getShaRequest repo branch path, GhEvent.putRequest repo branch path payload]

/-! ### Console exit codes (`main.main`, main.py lines 189-226, and `ensure_ffmpeg_available`, lines 26-53) -/

/-- `shutil.which("ffmpeg") is not None or find_local_ffmpeg_dir()`:
the guard condition of `ensure_ffmpeg_available`. `which_ffmpeg` is the
result of the PATH lookup and `local_ffmpeg_dir` the result of the local
probe ("" = not found). -/
def ffmpeg_available (which_ffmpeg : Option String) (local_ffmpeg_dir : String) : Bool :=
  which_ffmpeg.isSome || !local_ffmpeg_dir.isEmpty

/-- Outcome of the blocking `ydl.download(inputs)` call inside `main`'s
`try` block. -/
inductive DownloadOutcome where
  | completed (return_code : Int)
  | keyboardInterrupt
  | otherError (msg : String)
deriving DecidableEq

/-- Embeds the exit-status logic of `main.main`: `ensure_ffmpeg_available`
exits 1 before any work when no encoder is found; otherwise a keyboard
interrupt exits 130, any other exception exits 1, a non-zero library return
code is passed through to `sys.exit`, and normal completion exits 0. -/
def main_exit_code (which_ffmpeg : Option String) (local_ffmpeg_dir : String)
    (dl : DownloadOutcome) : Int :=
  if ffmpeg_available which_ffmpeg local_ffmpeg_dir then
    match dl with
    | DownloadOutcome.keyboardInterrupt => 130
    | DownloadOutcome.otherError _ => 1
    | DownloadOutcome.completed rc => if rc ≠ 0 then rc else 0
  else 1

/-! ## Helper lemmas -/

/-- A list is a leading segment of itself followed by anything. -/
theorem leadsWith_append (n t : List Char) : leadsWith n (n ++ t) = true := by
  induction n with
  | nil => rfl
  | cons c cs ih => simp [leadsWith, ih]

/-- A list occurs in any surrounding context. -/
theorem occursIn_append_self (a n b : List Char) : occursIn n (a ++ (n ++ b)) = true := by
  induction a with
  | nil =>
    show occursIn n (n ++ b) = true
    cases hn : n ++ b with
    | nil =>
      have hn0 : n = [] := (List.append_eq_nil.mp hn).1
      rw [hn0]
      rfl
    | cons c cs =>
      have h1 : leadsWith n (c :: cs) = true := by
        rw [← hn]; exact leadsWith_append n b
      simp [occursIn, h1]
  | cons x xs ih =>
    simp [occursIn, ih]

/-- The skip reason produced by `_match_filter` contains the original,
un-lowercased filter text. -/
theorem strContains_skip_message (s : String) : strContains (skip_message s) s = true := by
  unfold strContains skip_message
  rw [String.data_append, String.data_append, List.append_assoc]
  exact occursIn_append_self _ _ _

/-- The code-point lexicographic order is total. -/
theorem listStrLe_total (as bs : List Char) :
    listStrLe as bs = true ∨ listStrLe bs as = true := by
  induction as generalizing bs with
  | nil => exact Or.inl rfl
  | cons a as ih =>
    cases bs with
    | nil => exact Or.inr rfl
    | cons b bs =>
      rcases Nat.lt_trichotomy a.toNat b.toNat with h | h | h
      · exact Or.inl (by simp [listStrLe, h])
      · have hnot : ¬ a.toNat < b.toNat := by omega
        have hnot2 : ¬ b.toNat < a.toNat := by omega
        rcases ih bs with h2 | h2
        · exact Or.inl (by simp [listStrLe, hnot, hnot2, h2])
        · exact Or.inr (by simp [listStrLe, hnot, hnot2, h2])
      · exact Or.inr (by simp [listStrLe, h])

/-- The code-point lexicographic order is transitive. -/
theorem listStrLe_trans (as bs cs : List Char) (h1 : listStrLe as bs = true)
    (h2 : listStrLe bs cs = true) : listStrLe as cs = true := by
  induction as generalizing bs cs with
  | nil => rfl
  | cons a as ih =>
    cases bs with
    | nil => exact absurd h1 (by simp [listStrLe])
    | cons b bs =>
      cases cs with
      | nil => exact absurd h2 (by simp [listStrLe])
      | cons c cs =>
        simp only [listStrLe] at h1 h2 ⊢
        split_ifs at h1 h2 ⊢ <;>
          first
            | rfl
            | exact ih bs cs h1 h2
            | exact absurd h1 (by decide)
            | exact absurd h2 (by decide)
            | (exfalso; omega)

instance : IsTotal String (fun a b => pyStrGe a b = true) :=
  ⟨fun a b => listStrLe_total b.data a.data⟩

instance : IsTrans String (fun a b => pyStrGe a b = true) :=
  ⟨fun a b c hab hbc => listStrLe_trans c.data b.data a.data hbc hab⟩

/-- Boolean string-truthiness bridge: `!s.isEmpty` is Python's `if s:`. -/
theorem not_isEmpty_iff_ne (s : String) : (!s.isEmpty) = true ↔ s ≠ "" := by
  constructor
  · intro h heq
    subst heq
    exact absurd h (by decide)
  · intro h
    cases hb : s.isEmpty
    · rfl
    · exact absurd ((String.isEmpty_iff s).mp hb) h

/-- The match predicate installed by `build_yt_dlp_options` for a non-empty
filter string, in closed form. -/
theorem build_match_filter_eq (ufs : String) (hne : ufs ≠ "")
    (od af br cf dap lfd : String) (et wm : Bool) :
    (build_yt_dlp_options od af br et wm cf ufs dap lfd).match_filter =
      some (fun info_dict =>
        let needle := pyLower (pyStrip ufs)
        if !needle.isEmpty &&
            (strContains (pyLower (info_dict.uploader.getD "")) needle
             || strContains (pyLower (info_dict.channel.getD "")) needle
             || strContains (pyLower (info_dict.artist.getD "")) needle) then
          none
        else some (skip_message ufs)) := by
  simp [build_yt_dlp_options, hne]

/-- `resolveItem` resolves exactly the request's stable identifier. -/
theorem resolveItem_reqId (t : String) (row : Int) (r : AddReq) :
    (resolveItem t row r.probe).video_id = reqId r := by
  cases h : r.probe <;> simp [resolveItem, reqId, h]

/-- `on_add_one` in the duplicate case: the row is marked
`Skipped (duplicate)` and neither the session set nor the worker queue
changes. -/
theorem on_add_one_skip (s : AppState) (r : AddReq)
    (h1 : reqId r ≠ "") (h2 : reqId r ∈ s.session_ids) :
    on_add_one s r = { s with tableRows := s.tableRows ++
      [{ title := "Resolving…", status := "Skipped (duplicate)" }] } := by
  simp only [on_add_one, resolveItem_reqId]
  rw [if_pos ⟨h1, h2⟩]

/-- `on_add_one` in the non-duplicate case: the row is queued, the id (when
non-empty) joins the session set, and the item is appended to the worker
queue. -/
theorem on_add_one_enqueue (s : AppState) (r : AddReq)
    (h : ¬ (reqId r ≠ "" ∧ reqId r ∈ s.session_ids)) :
    on_add_one s r =
      { tableRows := s.tableRows ++
          [{ title := (resolveItem r.token s.tableRows.length r.probe).title,
             status := "Queued" }]
        session_ids := if reqId r ≠ "" then s.session_ids.insert (reqId r)
          else s.session_ids
        workerQueue := s.workerQueue ++
          [resolveItem r.token s.tableRows.length r.probe] } := by
  simp only [on_add_one, resolveItem_reqId]
  rw [if_neg h]

/-- One add step either leaves the session set unchanged or inserts the
resolved id. -/
theorem session_ids_on_add_one (s : AppState) (r : AddReq) :
    (on_add_one s r).session_ids = s.session_ids
    ∨ (on_add_one s r).session_ids = s.session_ids.insert (reqId r) := by
  by_cases h : (reqId r ≠ "" ∧ reqId r ∈ s.session_ids)
  · left
    rw [on_add_one_skip s r h.1 h.2]
  · rw [on_add_one_enqueue s r h]
    by_cases h2 : reqId r ≠ ""
    · right
      simp [h2]
    · left
      simp [h2]

/-- The session set only grows across one add. -/
theorem mem_session_of_mem (s : AppState) (r : AddReq) {x : String}
    (hx : x ∈ s.session_ids) : x ∈ (on_add_one s r).session_ids := by
  rcases session_ids_on_add_one s r with h | h <;> rw [h]
  · exact hx
  · exact List.mem_insert_of_mem hx

/-- Every member of the session set after one add was already present or is
that add's resolved id. -/
theorem mem_session_src (s : AppState) (r : AddReq) {x : String}
    (hx : x ∈ (on_add_one s r).session_ids) : x ∈ s.session_ids ∨ x = reqId r := by
  rcases session_ids_on_add_one s r with h | h
  · rw [h] at hx
    exact Or.inl hx
  · rw [h] at hx
    have hins : x ∈ s.session_ids.insert (reqId r) ↔ x = reqId r ∨ x ∈ s.session_ids :=
      List.mem_insert_iff
    rcases hins.mp hx with h2 | h2
    · exact Or.inr h2
    · exact Or.inl h2

/-- After adding a request with a non-empty id, that id is in the session
set (either it was already there or it was just inserted). -/
theorem mem_session_self (s : AppState) (r : AddReq) (h : reqId r ≠ "") :
    reqId r ∈ (on_add_one s r).session_ids := by
  by_cases h2 : reqId r ∈ s.session_ids
  · exact mem_session_of_mem s r h2
  · rw [on_add_one_enqueue s r (fun hc => h2 hc.2)]
    show reqId r ∈ (if reqId r ≠ "" then s.session_ids.insert (reqId r) else s.session_ids)
    rw [if_pos h]
    exact List.mem_insert_self _ _

/-- Session membership is preserved by any further sequence of adds. -/
theorem mem_session_foldl (reqs : List AddReq) (s : AppState) {x : String}
    (hx : x ∈ s.session_ids) : x ∈ (List.foldl on_add_one s reqs).session_ids := by
  induction reqs generalizing s with
  | nil => exact hx
  | cons r rs ih => exact ih _ (mem_session_of_mem s r hx)

/-- Every session-set member after a sequence of adds was present initially
or is some processed request's resolved id. -/
theorem mem_session_foldl_src (reqs : List AddReq) (s : AppState) {x : String}
    (hx : x ∈ (List.foldl on_add_one s reqs).session_ids) :
    x ∈ s.session_ids ∨ ∃ r ∈ reqs, reqId r = x := by
  induction reqs generalizing s with
  | nil => exact Or.inl hx
  | cons r rs ih =>
    rcases ih _ hx with h | h
    · rcases mem_session_src s r h with h2 | h2
      · exact Or.inl h2
      · exact Or.inr ⟨r, List.mem_cons_self r rs, h2.symm⟩
    · obtain ⟨r2, hr2, hid2⟩ := h
      exact Or.inr ⟨r2, List.mem_cons_of_mem r hr2, hid2⟩

/-- The last row appended is the last row of the table. -/
theorem getLast_append_singleton {α : Type} (l : List α) (a : α) :
    (l ++ [a]).getLast? = some a := by
  induction l with
  | nil => rfl
  | cons b bs ih =>
    rw [List.cons_append, List.getLast?_cons]
    simp [ih]

/-! ## Claim theorems -/

/-- Claim C1: for every combination of the boolean flags `write_metadata` and
`embed_thumbnail`, the postprocessors list built by `build_yt_dlp_options`
starts with the FFmpegExtractAudio stage, contains FFmpegMetadata iff
`write_metadata`, contains FFmpegThumbnailsEmbed iff `embed_thumbnail`, and
when both flags are set the order is extract-audio, metadata,
thumbnail-embed. -/
theorem c1_postprocessor_stages
    (output_dir audio_format bitrate cookies_file ufs dap lfd : String)
    (embed_thumbnail write_metadata : Bool) :
    ((build_yt_dlp_options output_dir audio_format bitrate embed_thumbnail
        write_metadata cookies_file ufs dap lfd).postprocessors.map PPStage.key).head?
      = some "FFmpegExtractAudio"
    ∧ ("FFmpegMetadata" ∈ (build_yt_dlp_options output_dir audio_format bitrate embed_thumbnail
        write_metadata cookies_file ufs dap lfd).postprocessors.map PPStage.key
        ↔ write_metadata = true)
    ∧ ("FFmpegThumbnailsEmbed" ∈ (build_yt_dlp_options output_dir audio_format bitrate
        embed_thumbnail write_metadata cookies_file ufs dap lfd).postprocessors.map PPStage.key
        ↔ embed_thumbnail = true)
    ∧ (write_metadata = true → embed_thumbnail = true →
        (build_yt_dlp_options output_dir audio_format bitrate embed_thumbnail
          write_metadata cookies_file ufs dap lfd).postprocessors.map PPStage.key
          = ["FFmpegExtractAudio", "FFmpegMetadata", "FFmpegThumbnailsEmbed"]) := by
  cases write_metadata <;> cases embed_thumbnail <;>
    simp [build_yt_dlp_options]

/-- Witness for C1 at concrete inputs with both flags set. -/
theorem c1_postprocessor_stages_witness :
    ((build_yt_dlp_options "out" "mp3" "192" true true "" "" "" "").postprocessors.map
      PPStage.key) = ["FFmpegExtractAudio", "FFmpegMetadata", "FFmpegThumbnailsEmbed"] :=
  (c1_postprocessor_stages "out" "mp3" "192" "" "" "" "" true true).2.2.2 rfl rfl

/-- Claim C2: `normalize_bitrate_to_yt_dlp_quality` strips surrounding
whitespace, lowercases, drops one trailing `k`, and returns the remainder
when it consists only of digits, otherwise the baseline `"192"`; in
particular `"192" ↦ "192"`, `"192k" ↦ "192"`, `"abc" ↦ "192"`, `"" ↦ "192"`. -/
theorem c2_normalize_bitrate (s : String) :
    normalize_bitrate_to_yt_dlp_quality s =
      (let cleaned := pyLowerList (pyStripList s.data)
       let cleaned := if lastCharIs cleaned 'k' then cleaned.dropLast else cleaned
       if pyIsDigitList cleaned then String.mk cleaned else "192")
    ∧ normalize_bitrate_to_yt_dlp_quality "192" = "192"
    ∧ normalize_bitrate_to_yt_dlp_quality "192k" = "192"
    ∧ normalize_bitrate_to_yt_dlp_quality "abc" = "192"
    ∧ normalize_bitrate_to_yt_dlp_quality "" = "192" := by
  refine ⟨?_, by decide, by decide, by decide, by decide⟩
  unfold normalize_bitrate_to_yt_dlp_quality
  cases h : pyIsDigitList
      (if lastCharIs (pyLowerList (pyStripList s.data)) 'k' then
        (pyLowerList (pyStripList s.data)).dropLast
       else pyLowerList (pyStripList s.data)) <;>
    simp [h]

/-- Claim C7: `github_put_file` performs the remote hash fetch before the
write request, and the write payload carries a `sha` field exactly when the
fetch returned a non-empty hash (file already present remotely); when no
remote file exists the payload omits the field. -/
theorem c7_sha_fetch_before_put (remoteSha repo branch path message : String)
    (bytes : List Nat) :
    github_put_file remoteSha repo branch path message bytes =
      [GhEvent.getShaRequest repo branch path,
       GhEvent.putRequest repo branch path
         { message := message, content := base64Encode bytes, branch := branch,
           sha := if remoteSha = "" then none else some remoteSha }]
    ∧ ((if remoteSha = "" then (none : Option String) else some remoteSha).isSome
        ↔ remoteSha ≠ "") := by
  constructor
  · unfold github_put_file
    by_cases h : remoteSha = "" <;> simp [h]
  · by_cases h : remoteSha = "" <;> simp [h]

/-- Claim C8: the console entry point exits 0 when the wrapped download call
returns 0, passes through the library's non-zero return code, exits 130 on
keyboard interrupt, exits 1 on any other exception, and exits 1 before any
work when no encoder binary is found on PATH or locally. -/
theorem c8_exit_codes (which_ffmpeg : Option String) (local_dir : String)
    (rc : Int) (msg : String) :
    (ffmpeg_available which_ffmpeg local_dir = true →
      main_exit_code which_ffmpeg local_dir (DownloadOutcome.completed 0) = 0
      ∧ main_exit_code which_ffmpeg local_dir DownloadOutcome.keyboardInterrupt = 130
      ∧ main_exit_code which_ffmpeg local_dir (DownloadOutcome.otherError msg) = 1
      ∧ (rc ≠ 0 → main_exit_code which_ffmpeg local_dir (DownloadOutcome.completed rc) = rc))
    ∧ (ffmpeg_available which_ffmpeg local_dir = false →
        ∀ d, main_exit_code which_ffmpeg local_dir d = 1) := by
  constructor
  · intro h
    refine ⟨by simp [main_exit_code, h], by simp [main_exit_code, h],
      by simp [main_exit_code, h], fun hrc => by simp [main_exit_code, h, hrc]⟩
  · intro h d
    simp [main_exit_code, h]

/-- Witness for C8: both the available-encoder cases and the missing-encoder
case, at concrete inputs. -/
theorem c8_exit_codes_witness :
    main_exit_code (some "/usr/bin/ffmpeg") "" (DownloadOutcome.completed 5) = 5
    ∧ main_exit_code none "" (DownloadOutcome.completed 0) = 1 :=
  ⟨((c8_exit_codes (some "/usr/bin/ffmpeg") "" 5 "e").1 (by decide)).2.2.2 (by decide),
   (c8_exit_codes none "" 5 "e").2 (by decide) (DownloadOutcome.completed 0)⟩

/-- Claim C6: the library listing contains exactly the names of the regular
files directly under the output directory whose lowercased final extension
is in the fixed recognized audio-extension set — subdirectories and files
with other extensions are excluded — and the names appear in lexicographic
(code-point) descending order. -/
theorem c6_refresh_library (names : List String) (isFile : String → Bool) :
    (∀ n, n ∈ refresh_library names isFile ↔
      (n ∈ names ∧ isFile n = true
        ∧ audio_extensions.contains (file_extension n) = true))
    ∧ List.Sorted (fun a b : String => pyStrGe a b = true)
        (refresh_library names isFile) := by
  constructor
  · intro n
    unfold refresh_library
    rw [List.mem_filter, List.mem_insertionSort, Bool.and_eq_true]
  · exact List.Pairwise.filter _
      (List.sorted_insertionSort (fun a b : String => pyStrGe a b = true) names)

/-- Counterexample to claim C3 as stated: the filter `" "` is non-empty, its
stripped and lowercased form `""` is (vacuously) a substring of the
lowercased uploader, yet the installed predicate returns a skip-reason
string instead of passing. -/
theorem c3_match_filter_counterexample :
    strContains (pyLower "Artist X") (pyLower (pyStrip " ")) = true
    ∧ ((build_yt_dlp_options "out" "mp3" "192" false true "" " " "" "").match_filter.map
        (fun f => f { uploader := some "Artist X" })) = some (some (skip_message " ")) := by
  decide

/-- Claim C3 (amended): for a non-empty uploader filter whose stripped form
is also non-empty as required by the pass condition, the installed predicate
passes exactly when the stripped, lowercased filter text is non-empty and is
a substring of the lowercased uploader, channel or artist field (missing
fields read as the empty string); otherwise it returns the skip-reason
string, which contains the original, un-lowercased filter text. -/
theorem c3_match_filter_amended (od af br cf dap lfd ufs : String) (et wm : Bool)
    (info : InfoDict) (hne : ufs ≠ "") :
    ((build_yt_dlp_options od af br et wm cf ufs dap lfd).match_filter.map
        (fun f => f info) = some none ↔
      (pyLower (pyStrip ufs) ≠ "" ∧
        (strContains (pyLower (info.uploader.getD "")) (pyLower (pyStrip ufs)) = true
         ∨ strContains (pyLower (info.channel.getD "")) (pyLower (pyStrip ufs)) = true
         ∨ strContains (pyLower (info.artist.getD "")) (pyLower (pyStrip ufs)) = true)))
    ∧ (∀ msg, (build_yt_dlp_options od af br et wm cf ufs dap lfd).match_filter.map
        (fun f => f info) = some (some msg) →
        msg = skip_message ufs ∧ strContains msg ufs = true) := by
  rw [build_match_filter_eq ufs hne od af br cf dap lfd et wm]
  simp only [Option.map_some']
  constructor
  · by_cases h : (!(pyLower (pyStrip ufs)).isEmpty &&
        (strContains (pyLower (info.uploader.getD "")) (pyLower (pyStrip ufs))
         || strContains (pyLower (info.channel.getD "")) (pyLower (pyStrip ufs))
         || strContains (pyLower (info.artist.getD "")) (pyLower (pyStrip ufs)))) = true
    · simp only [h, if_true]
      rw [Bool.and_eq_true, Bool.or_eq_true, Bool.or_eq_true] at h
      simp only [Option.some.injEq, true_iff, eq_self_iff_true]
      constructor
      · exact (not_isEmpty_iff_ne _).mp h.1
      · exact or_assoc.mp h.2
    · simp only [Bool.not_eq_true] at h
      simp only [h, Bool.false_eq_true, if_false]
      constructor
      · intro habs
        exact absurd habs (by simp)
      · rintro ⟨hn, hdisj⟩
        exfalso
        rw [← Bool.not_eq_true, Bool.and_eq_true, Bool.or_eq_true, Bool.or_eq_true] at h
        exact h ⟨(not_isEmpty_iff_ne _).mpr hn, or_assoc.mpr hdisj⟩
  · intro msg hmsg
    by_cases h : (!(pyLower (pyStrip ufs)).isEmpty &&
        (strContains (pyLower (info.uploader.getD "")) (pyLower (pyStrip ufs))
         || strContains (pyLower (info.channel.getD "")) (pyLower (pyStrip ufs))
         || strContains (pyLower (info.artist.getD "")) (pyLower (pyStrip ufs)))) = true
    · simp [h] at hmsg
    · simp only [Bool.not_eq_true] at h
      simp only [h, Bool.false_eq_true, if_false, Option.some.injEq] at hmsg
      subst hmsg
      exact ⟨rfl, strContains_skip_message ufs⟩

/-- Witness for C3 (amended) with uploader `"Artist X"` and filter
`"artist y"`: the hypothesis and the instantiated conclusion. -/
theorem c3_match_filter_amended_witness :
    ("artist y" : String) ≠ ""
    ∧ (((build_yt_dlp_options "out" "mp3" "192" false true "" "artist y" "" "").match_filter.map
          (fun f => f { uploader := some "Artist X" }) = some none ↔
        (pyLower (pyStrip "artist y") ≠ "" ∧
          (strContains (pyLower ((({ uploader := some "Artist X" } : InfoDict)).uploader.getD ""))
              (pyLower (pyStrip "artist y")) = true
           ∨ strContains (pyLower ((({ uploader := some "Artist X" } : InfoDict)).channel.getD ""))
              (pyLower (pyStrip "artist y")) = true
           ∨ strContains (pyLower ((({ uploader := some "Artist X" } : InfoDict)).artist.getD ""))
              (pyLower (pyStrip "artist y")) = true)))
      ∧ (∀ msg, (build_yt_dlp_options "out" "mp3" "192" false true "" "artist y" "" "").match_filter.map
          (fun f => f { uploader := some "Artist X" }) = some (some msg) →
          msg = skip_message "artist y" ∧ strContains msg "artist y" = true)) :=
  ⟨by decide,
   c3_match_filter_amended "out" "mp3" "192" "" "" "" "artist y" false true
     { uploader := some "Artist X" } (by decide)⟩

/-- Claim C10: a non-empty but whitespace-only filter string still installs
the match predicate, and that predicate returns the skip-reason string for
every candidate item, because the stripped, lowercased needle is empty while
the pass condition requires a non-empty needle. -/
theorem c10_whitespace_filter (od af br cf dap lfd ufs : String) (et wm : Bool)
    (info : InfoDict) (h1 : ufs ≠ "") (h2 : pyStrip ufs = "") :
    (build_yt_dlp_options od af br et wm cf ufs dap lfd).match_filter.isSome = true
    ∧ (build_yt_dlp_options od af br et wm cf ufs dap lfd).match_filter.map
        (fun f => f info) = some (some (skip_message ufs)) := by
  rw [build_match_filter_eq ufs h1 od af br cf dap lfd et wm]
  have hlow : pyLower (pyStrip ufs) = "" := by rw [h2]; rfl
  have hval : (!(pyLower (pyStrip ufs)).isEmpty) = false := by rw [hlow]; rfl
  refine ⟨rfl, ?_⟩
  simp [hval]

/-- Witness for C10 at the whitespace-only filter `" "`. -/
theorem c10_whitespace_filter_witness :
    (" " : String) ≠ "" ∧ pyStrip " " = ""
    ∧ ((build_yt_dlp_options "o" "mp3" "192" false true "" " " "" "").match_filter.isSome = true
       ∧ (build_yt_dlp_options "o" "mp3" "192" false true "" " " "" "").match_filter.map
          (fun f => f ({} : InfoDict)) = some (some (skip_message " "))) :=
  ⟨by decide, by decide,
   c10_whitespace_filter "o" "mp3" "192" "" "" "" " " false true {} (by decide) (by decide)⟩

/-- Counterexample to claim C9 as stated: with metadata writing not
requested, the options do not contain a write-metadata stage, so the claim
that for every input both the extract-audio and write-metadata stages are
installed is false. -/
theorem c9_options_counterexample :
    ¬ ("FFmpegMetadata" ∈
        ((build_yt_dlp_options "out" "mp3" "192" false false "" "" "" "").postprocessors.map
          PPStage.key)) := by
  decide

/-- Claim C9 (amended): the options always request the best audio-only
stream, disable overwriting, and install the extract-audio stage first; the
write-metadata stage is installed iff metadata writing is requested, and the
thumbnail-embed stage is present iff thumbnail embedding is requested. -/
theorem c9_options_amended (od af br cf ufs dap lfd : String) (et wm : Bool) :
    (build_yt_dlp_options od af br et wm cf ufs dap lfd).format = "bestaudio/best"
    ∧ (build_yt_dlp_options od af br et wm cf ufs dap lfd).overwrites = false
    ∧ ((build_yt_dlp_options od af br et wm cf ufs dap lfd).postprocessors.map
        PPStage.key).head? = some "FFmpegExtractAudio"
    ∧ ("FFmpegMetadata" ∈ (build_yt_dlp_options od af br et wm cf ufs dap lfd).postprocessors.map
        PPStage.key ↔ wm = true)
    ∧ ("FFmpegThumbnailsEmbed" ∈ (build_yt_dlp_options od af br et wm cf
        ufs dap lfd).postprocessors.map PPStage.key ↔ et = true) := by
  cases wm <;> cases et <;> simp [build_yt_dlp_options]

/-- Counterexample to claim C4 as stated: one item is added (and enqueued to
the worker queue), the queue is cleared, and yet the very item queued before
the clear is subsequently handed to the download worker; so "no item that
was queued before the clear is subsequently handed to the download worker"
is false. (The session-set part of the claim does hold.) -/
theorem c4_clear_counterexample :
    ((on_add_one initState
        { token := "https://example.com/a", probe := some { id := "vidA" } }).workerQueue
      = [resolveItem "https://example.com/a" 0 (some { id := "vidA" })])
    ∧ ((worker_take (on_clear (on_add_one initState
        { token := "https://example.com/a", probe := some { id := "vidA" } }))).1
      = some (resolveItem "https://example.com/a" 0 (some { id := "vidA" })))
    ∧ (on_clear (on_add_one initState
        { token := "https://example.com/a", probe := some { id := "vidA" } })).session_ids
      = [] := by
  decide

/-- Claim C4 (amended): clearing the queue removes every row and empties the
session identifier set, but leaves the worker queue untouched, so items
already enqueued before the clear remain and may still be handed to the
worker. -/
theorem c4_clear_amended (s : AppState) :
    (on_clear s).tableRows = [] ∧ (on_clear s).session_ids = []
    ∧ (on_clear s).workerQueue = s.workerQueue :=
  ⟨rfl, rfl, rfl⟩

/-- Claim C5: in one session (no intervening clear), when two add operations
resolve to the same non-empty stable identifier and the first of them is the
first occurrence of that identifier, the first is enqueued to the worker
queue with its identifier recorded in the session set and its row marked
Queued, while the second is marked `Skipped (duplicate)` and never enqueued,
regardless of the adds processed in between. -/
theorem c5_duplicate_detection (pre mid : List AddReq) (r1 r2 : AddReq)
    (hid : reqId r1 = reqId r2) (hne : reqId r1 ≠ "")
    (hfirst : ∀ r ∈ pre, reqId r ≠ reqId r1) :
    ((on_add_one (List.foldl on_add_one initState pre) r1).workerQueue
      = (List.foldl on_add_one initState pre).workerQueue ++
        [resolveItem r1.token (List.foldl on_add_one initState pre).tableRows.length r1.probe])
    ∧ reqId r1 ∈ (on_add_one (List.foldl on_add_one initState pre) r1).session_ids
    ∧ (on_add_one (List.foldl on_add_one initState pre) r1).tableRows.getLast?.map
        RowState.status = some "Queued"
    ∧ ((on_add_one (List.foldl on_add_one
          (on_add_one (List.foldl on_add_one initState pre) r1) mid) r2).workerQueue
        = (List.foldl on_add_one
            (on_add_one (List.foldl on_add_one initState pre) r1) mid).workerQueue)
    ∧ (on_add_one (List.foldl on_add_one
          (on_add_one (List.foldl on_add_one initState pre) r1) mid) r2).tableRows.getLast?.map
        RowState.status = some "Skipped (duplicate)" := by
  have hpre : reqId r1 ∉ (List.foldl on_add_one initState pre).session_ids := by
    intro hx
    rcases mem_session_foldl_src pre initState hx with h | ⟨r, hr, hidr⟩
    · exact absurd h (List.not_mem_nil _)
    · exact hfirst r hr hidr
  have hcond1 : ¬ (reqId r1 ≠ "" ∧
      reqId r1 ∈ (List.foldl on_add_one initState pre).session_ids) :=
    fun hc => hpre hc.2
  have henq := on_add_one_enqueue (List.foldl on_add_one initState pre) r1 hcond1
  have hmem1 : reqId r1 ∈ (on_add_one (List.foldl on_add_one initState pre) r1).session_ids :=
    mem_session_self _ r1 hne
  have hmem2 : reqId r2 ∈ (List.foldl on_add_one
      (on_add_one (List.foldl on_add_one initState pre) r1) mid).session_ids := by
    rw [← hid]
    exact mem_session_foldl mid _ hmem1
  have hne2 : reqId r2 ≠ "" := hid ▸ hne
  have hskip := on_add_one_skip (List.foldl on_add_one
      (on_add_one (List.foldl on_add_one initState pre) r1) mid) r2 hne2 hmem2
  refine ⟨?_, hmem1, ?_, ?_, ?_⟩
  · rw [henq]
  · rw [henq]
    show ((List.foldl on_add_one initState pre).tableRows ++
      [({ title := (resolveItem r1.token
            (List.foldl on_add_one initState pre).tableRows.length r1.probe).title,
          status := "Queued" } : RowState)]).getLast?.map RowState.status = some "Queued"
    rw [getLast_append_singleton]
    rfl
  · rw [hskip]
  · rw [hskip]
    show ((List.foldl on_add_one
        (on_add_one (List.foldl on_add_one initState pre) r1) mid).tableRows ++
      [({ title := "Resolving…", status := "Skipped (duplicate)" } : RowState)]).getLast?.map
        RowState.status = some "Skipped (duplicate)"
    rw [getLast_append_singleton]
    rfl

/-- Witness for C5: the same id `"dup"` added twice back-to-back from a
fresh session; the first add is enqueued, the second is skipped. -/
theorem c5_duplicate_detection_witness :
    ((on_add_one (List.foldl on_add_one initState []) { token := "t", probe := some { id := "dup" } }).workerQueue
      = (List.foldl on_add_one initState []).workerQueue ++
        [resolveItem ({ token := "t", probe := some { id := "dup" } } : AddReq).token
          (List.foldl on_add_one initState []).tableRows.length
          ({ token := "t", probe := some { id := "dup" } } : AddReq).probe])
    ∧ reqId { token := "t", probe := some { id := "dup" } } ∈
        (on_add_one (List.foldl on_add_one initState [])
          { token := "t", probe := some { id := "dup" } }).session_ids
    ∧ (on_add_one (List.foldl on_add_one initState [])
        { token := "t", probe := some { id := "dup" } }).tableRows.getLast?.map
          RowState.status = some "Queued"
    ∧ ((on_add_one (List.foldl on_add_one
          (on_add_one (List.foldl on_add_one initState [])
            { token := "t", probe := some { id := "dup" } }) [])
          { token := "t", probe := some { id := "dup" } }).workerQueue
        = (List.foldl on_add_one
            (on_add_one (List.foldl on_add_one initState [])
              { token := "t", probe := some { id := "dup" } }) []).workerQueue)
    ∧ (on_add_one (List.foldl on_add_one
          (on_add_one (List.foldl on_add_one initState [])
            { token := "t", probe := some { id := "dup" } }) [])
          { token := "t", probe := some { id := "dup" } }).tableRows.getLast?.map
        RowState.status = some "Skipped (duplicate)" :=
  c5_duplicate_detection [] [] { token := "t", probe := some { id := "dup" } }
    { token := "t", probe := some { id := "dup" } } rfl (by decide)
    (fun r hr => absurd hr (List.not_mem_nil r))

end YtMp3
